import Mathlib

/-!
Verification of the Teaching-and-Learning module
(`src/pages/teacher/TeachingAndLearning.tsx`).

The module is a single React component plus helpers over a Firestore-backed
entry store.  We embed its data-flow logic shallowly:

* Remote calls (Firestore reads/writes, audit-log appends) and console
  diagnostics are modelled as an explicit trace of `Effect`s.
* A computation is a `Comp α`: the trace of effects it issued together with
  an `Except String α` result.  A thrown JS exception is an `Except.error`;
  a `try { … } catch { … }` block is `runCatch`.
* The outcome of each remote primitive is an oracle parameter of type
  `Except String _` supplied to the embedded function, so theorems quantify
  over every possible behaviour of the remote store.
* React state (`entries`, `teacherId`, a card's `formData`/`showForm`) is
  passed and returned explicitly.
-/

/-- The seven data fields of a stored TeachingLearning document — the object
`newEntry = {category, title, className, section, description, url, teacherId}`
built in `addOrUpdateEntry`, and the field set read back in `fetchEntries`. -/
structure EntryDoc where
  category : String
  title : String
  className : String
  «section» : String
  description : String
  url : String
  teacherId : String
  deriving Repr, DecidableEq

/-- The client-side `Entry` shape: a stored document together with the
store-assigned document id (`doc.id`). -/
structure Entry where
  id : String
  title : String
  className : String
  «section» : String
  description : String
  url : String
  teacherId : String
  category : String
  deriving Repr, DecidableEq

/-- A document as returned by the store query: id plus data. -/
structure StoreDoc where
  id : String
  data : EntryDoc
  deriving Repr, DecidableEq

/-- The activity-log record built by `logActivity`:
`{actionType, entity, description, timestamp, userId}`.  `new Date()` is
modelled by an oracle `timestamp : Nat`; `userId` is nullable. -/
structure LogRecord where
  actionType : String
  entity : String
  description : String
  timestamp : Nat
  userId : Option String
  deriving Repr, DecidableEq

/-- One observable effect of the module: a remote call issued against the
backing services, or a console diagnostic. -/
inductive Effect where
  /-- `getDoc(doc(db, "teachers", userId))` — the identity-resolver lookup. -/
  | getTeacherDoc : String → Effect
  /-- `getDocs(query(collection(db, "TeachingLearning"), where("teacherId", "==", tid)))`. -/
  | queryEntries : String → Effect
  /-- `addDoc(collection(db, "TeachingLearning"), d)`. -/
  | addEntryDoc : EntryDoc → Effect
  /-- `updateDoc(doc(db, "TeachingLearning", entryId), d)`. -/
  | updateEntryDoc : String → EntryDoc → Effect
  /-- `deleteDoc(doc(db, "TeachingLearning", entryId))`. -/
  | deleteEntryDoc : String → Effect
  /-- `addDoc(collection(db, "activityLogs"), rec)` — the audit append. -/
  | logAppend : LogRecord → Effect
  /-- `console.log(msg)`. -/
  | consoleLog : String → Effect
  /-- `console.error(msg)`. -/
  | consoleError : String → Effect
  deriving Repr, DecidableEq

/-- A computation of the module: the effects it issued, in order, and its
result — `Except.error` when a JS exception escapes it. -/
structure Comp (α : Type) where
  trace : List Effect
  result : Except String α
  deriving Repr

/-- Return without effects. -/
def Comp.pure (a : α) : Comp α := ⟨[], Except.ok a⟩

/-- Sequencing: an exception aborts the rest; effects issued before it stay
in the trace. -/
def Comp.bind (c : Comp α) (f : α → Comp β) : Comp β :=
  match c.result with
  | Except.ok a =>
      let c2 := f a
      ⟨c.trace ++ c2.trace, c2.result⟩
  | Except.error e => ⟨c.trace, Except.error e⟩

/-- `try { body } catch (e) { handler e }`: the handler sees the exception;
effects of `body` issued before the throw remain in the trace. -/
def runCatch (body : Comp α) (handler : String → Comp α) : Comp α :=
  match body.result with
  | Except.ok _ => body
  | Except.error e =>
      let c2 := handler e
      ⟨body.trace ++ c2.trace, c2.result⟩

/-- Issue one remote call: the effect always enters the trace, and the
oracle `r` decides what the service answers (or that the call throws). -/
def callRemote (eff : Effect) (r : Except String β) : Comp β := ⟨[eff], r⟩

/-- `console.log` never throws. -/
def consoleLogC (msg : String) : Comp Unit := ⟨[Effect.consoleLog msg], Except.ok ()⟩

/-- `console.error` never throws. -/
def consoleErrorC (msg : String) : Comp Unit := ⟨[Effect.consoleError msg], Except.ok ()⟩

/-- The four fixed bucket names, in the order the component declares them. -/
def categoryNames : List String :=
  ["Course Design", "Pedagogical Innovations", "Student Feedback", "Academic Results"]

/-- The `Record<string, Entry[]>` with exactly the four fixed keys: the
component's `entries` state and the local `updatedEntries` of `fetchEntries`. -/
structure Buckets where
  courseDesign : List Entry
  pedagogicalInnovations : List Entry
  studentFeedback : List Entry
  academicResults : List Entry
  deriving Repr, DecidableEq

/-- The initial (and freshly rebuilt) state: all four buckets empty. -/
def initialBuckets : Buckets := ⟨[], [], [], []⟩

/-- JS property read `b[c]` on the four-key record: `some` the bucket when
`c` is one of the four keys, `none` (undefined, falsy) otherwise. -/
def bucketsGet (b : Buckets) (c : String) : Option (List Entry) :=
  if c = "Course Design" then some b.courseDesign
  else if c = "Pedagogical Innovations" then some b.pedagogicalInnovations
  else if c = "Student Feedback" then some b.studentFeedback
  else if c = "Academic Results" then some b.academicResults
  else none

/-- JS property write `b[c] = l` on the four-key record (a no-op for a key
outside the fixed four — `fetchEntries` only writes under a guard that the
key is present). -/
def bucketsSet (b : Buckets) (c : String) (l : List Entry) : Buckets :=
  if c = "Course Design" then { b with courseDesign := l }
  else if c = "Pedagogical Innovations" then { b with pedagogicalInnovations := l }
  else if c = "Student Feedback" then { b with studentFeedback := l }
  else if c = "Academic Results" then { b with academicResults := l }
  else b

/-- The `Entry` object `fetchEntries` pushes: `doc.id` plus the document's
seven data fields. -/
def entryOfDoc (d : StoreDoc) : Entry :=
  ⟨d.id, d.data.title, d.data.className, d.data.«section», d.data.description,
    d.data.url, d.data.teacherId, d.data.category⟩

/-- One iteration of the `querySnapshot.forEach` body:
`if (updatedEntries[data.category]) { updatedEntries[data.category].push(entry) }`. -/
def buildStep (acc : Buckets) (d : StoreDoc) : Buckets :=
  match bucketsGet acc d.data.category with
  | some l => bucketsSet acc d.data.category (l ++ [entryOfDoc d])
  | none => acc

/-- The whole `forEach` loop of `fetchEntries`, started from the freshly
initialised `updatedEntries` record. -/
def buildBuckets (docs : List StoreDoc) : Buckets :=
  docs.foldl buildStep initialBuckets

/-- `logActivity(actionType, entity, description, userId)`: builds the log
record, appends it to `activityLogs`, and swallows any error of the append.
`now` models `new Date()`; `addRes` is the append's outcome. -/
def logActivity (actionType entity description : String) (userId : Option String)
    (now : Nat) (addRes : Except String Unit) : Comp Unit :=
  runCatch
    (Comp.bind
      (callRemote (Effect.logAppend ⟨actionType, entity, description, now, userId⟩) addRes)
      (fun _ => consoleLogC "Activity logged successfully!"))
    (fun e => consoleErrorC ("Error logging activity: " ++ e))

/-- The component state the claims talk about: the bucketed `entries` and the
resolved `teacherId`, with their `useState` initial values. -/
structure ComponentState where
  entries : Buckets
  teacherId : Option String
  deriving Repr, DecidableEq

/-- `useState` initial values: the four empty buckets and `teacherId = null`. -/
def initialState : ComponentState := ⟨initialBuckets, none⟩

/-- JS truthiness of `user?.id`: there is a session user and its id is a
non-empty string.  `user` is the session user's id when a user is present. -/
def truthyUserId : Option String → Bool
  | none => false
  | some s => s ≠ ""

/-- `fetchTeacherId`: guarded by `user?.id`, looks the teacher document up by
the user's id and, when it exists, stores its id as `teacherId`; a missing
document or a thrown error only logs.  `lookupRes` is the `getDoc` outcome
(`Bool` = `teacherDoc.exists()`). -/
def fetchTeacherId (user : Option String) (lookupRes : Except String Bool)
    (st : ComponentState) : Comp ComponentState :=
  runCatch
    (match user with
     | none => Comp.bind (consoleErrorC "User ID is not available") (fun _ => Comp.pure st)
     | some uid =>
       if uid = "" then
         Comp.bind (consoleErrorC "User ID is not available") (fun _ => Comp.pure st)
       else
         Comp.bind (callRemote (Effect.getTeacherDoc uid) lookupRes) (fun ex =>
           if ex then Comp.pure { st with teacherId := some uid }
           else Comp.bind (consoleErrorC "Teacher document does not exist.")
             (fun _ => Comp.pure st)))
    (fun e => Comp.bind (consoleErrorC ("Error fetching teacher ID: " ++ e))
      (fun _ => Comp.pure st))

/-- `fetchEntries`: returns early when `teacherId` is null; otherwise queries
the store for the teacher's documents, rebuilds the four buckets from scratch
and returns them as the new `entries` state; any error is caught and logged
and the previous state is returned unchanged.  `queryRes` is the `getDocs`
outcome; `prev` the current `entries` state. -/
def fetchEntries (teacherId : Option String) (prev : Buckets)
    (queryRes : Except String (List StoreDoc)) : Comp Buckets :=
  match teacherId with
  | none => Comp.pure prev
  | some tid =>
    runCatch
      (Comp.bind (callRemote (Effect.queryEntries tid) queryRes)
        (fun docs => Comp.pure (buildBuckets docs)))
      (fun e => Comp.bind (consoleErrorC ("Error fetching entries: " ++ e))
        (fun _ => Comp.pure prev))

/-- The five-field argument object of `validateForm`. -/
structure FormFields where
  title : String
  className : String
  «section» : String
  description : String
  url : String
  deriving Repr, DecidableEq

/-- `validateForm`: all five fields differ from the empty string. -/
def validateForm (f : FormFields) : Bool :=
  f.title != "" && f.className != "" && f.«section» != "" &&
    f.description != "" && f.url != ""

/-- `addOrUpdateEntry`: a no-op while `teacherId` is null; otherwise builds
`newEntry` from the arguments plus the resolved `teacherId`, updates the
document `entryId` when one is supplied or adds a new document otherwise,
logs an "Edit"/"Add" audit record, and re-fetches; a thrown store error is
caught and logged.  `userId` is `user?.id ?? null`; `mutRes`, `logRes`,
`queryRes` are the outcomes of the mutation, the audit append and the
re-fetch query; `prev` is the current `entries` state, and the returned
value is the `entries` state after the call. -/
def addOrUpdateEntry (teacherId userId : Option String)
    (category title className sec description url : String) (entryId : Option String)
    (mutRes logRes : Except String Unit) (now : Nat)
    (queryRes : Except String (List StoreDoc)) (prev : Buckets) : Comp Buckets :=
  match teacherId with
  | none => Comp.pure prev
  | some tid =>
    let newEntry : EntryDoc := ⟨category, title, className, sec, description, url, tid⟩
    runCatch
      (Comp.bind
        (match entryId with
         | some eid =>
           Comp.bind (callRemote (Effect.updateEntryDoc eid newEntry) mutRes) (fun _ =>
             logActivity "Edit" "TeachingLearning"
               ("Edited an entry titled \"" ++ title ++ "\" in the \"" ++ category
                 ++ "\" category") userId now logRes)
         | none =>
           Comp.bind (callRemote (Effect.addEntryDoc newEntry) mutRes) (fun _ =>
             logActivity "Add" "TeachingLearning"
               ("Added a new entry titled \"" ++ title ++ "\" in the \"" ++ category
                 ++ "\" category") userId now logRes))
        (fun _ => fetchEntries (some tid) prev queryRes))
      (fun e =>
        Comp.bind
          (consoleErrorC
            ((match entryId with
              | some _ => "Error updating entry: "
              | none => "Error adding entry: ") ++ e))
          (fun _ => Comp.pure prev))

/-- `handleDelete` of a card: deletes the document, logs a "Delete" audit
record, and calls the parent's `fetchEntries`; a thrown error is caught and
logged.  `teacherId`/`prev` are the parent component's state seen by the
passed-down `fetchEntries`. -/
def handleDelete (teacherId userId : Option String) (entryId title category : String)
    (delRes logRes : Except String Unit) (now : Nat)
    (queryRes : Except String (List StoreDoc)) (prev : Buckets) : Comp Buckets :=
  runCatch
    (Comp.bind (callRemote (Effect.deleteEntryDoc entryId) delRes) (fun _ =>
      Comp.bind
        (logActivity "Delete" "TeachingLearning"
          ("Deleted an entry titled \"" ++ title ++ "\" in the \"" ++ category
            ++ "\" category") userId now logRes)
        (fun _ => fetchEntries teacherId prev queryRes)))
    (fun e => Comp.bind (consoleErrorC ("Error deleting entry: " ++ e))
      (fun _ => Comp.pure prev))

/-- A card's `formData` state: the entry fields plus the id that marks
edit-vs-create mode. -/
structure FormData where
  id : String
  title : String
  className : String
  «section» : String
  description : String
  url : String
  deriving Repr, DecidableEq

/-- The `useState` initial value of `formData`, and the value `setFormData`
resets it to on save: every field the empty string. -/
def emptyFormData : FormData := ⟨"", "", "", "", "", ""⟩

/-- A card's local UI state: `showForm`, `formData`, `viewMore`. -/
structure CardState where
  showForm : Bool
  formData : FormData
  viewMore : Bool
  deriving Repr, DecidableEq

/-- `formData.id || undefined`: the empty string means create mode. -/
def formIdOpt (fd : FormData) : Option String :=
  if fd.id = "" then none else some fd.id

/-- A card's `handleAddOrUpdate` (the Save button): forwards the form fields
to `onAddOrUpdate` — which the parent wires to `addOrUpdateEntry` with the
card's category — then clears `formData` and closes the form.  Returns the
card state after the click together with the forwarded computation. -/
def handleAddOrUpdate (cs : CardState) (teacherId userId : Option String)
    (category : String) (mutRes logRes : Except String Unit) (now : Nat)
    (queryRes : Except String (List StoreDoc)) (prev : Buckets) :
    CardState × Comp Buckets :=
  ({ cs with formData := emptyFormData, showForm := false },
    addOrUpdateEntry teacherId userId category cs.formData.title cs.formData.className
      cs.formData.«section» cs.formData.description cs.formData.url
      (formIdOpt cs.formData) mutRes logRes now queryRes prev)

/-- The Cancel button's handler: `() => setShowForm(false)`. -/
def cancelForm (cs : CardState) : CardState := { cs with showForm := false }

/-- The component's mount-time effects, in order: the first `useEffect` runs
`fetchTeacherId` only when `user?.id` is truthy; the second runs
`fetchEntries` only when a `teacherId` was stored. -/
def mountComponent (user : Option String) (lookupRes : Except String Bool)
    (queryRes : Except String (List StoreDoc)) : Comp ComponentState :=
  Comp.bind
    (if truthyUserId user then fetchTeacherId user lookupRes initialState
     else Comp.pure initialState)
    (fun st1 =>
      match st1.teacherId with
      | some _ =>
        Comp.bind (fetchEntries st1.teacherId st1.entries queryRes)
          (fun b => Comp.pure ⟨b, st1.teacherId⟩)
      | none => Comp.pure st1)

/-- Is an effect a console diagnostic (as opposed to a remote call)? -/
def isConsole : Effect → Bool
  | Effect.consoleLog _ => true
  | Effect.consoleError _ => true
  | _ => false

/-- The remote calls of a trace, console diagnostics dropped. -/
def remoteOps (t : List Effect) : List Effect := t.filter (fun e => !isConsole e)

/-- The audit records appended along a trace. -/
def logAppends (t : List Effect) : List LogRecord :=
  t.filterMap (fun e =>
    match e with
    | Effect.logAppend r => some r
    | _ => none)

/-- The entry-store documents written along a trace (by add or by update). -/
def writtenDocs (t : List Effect) : List EntryDoc :=
  t.filterMap (fun e =>
    match e with
    | Effect.addEntryDoc d => some d
    | Effect.updateEntryDoc _ d => some d
    | _ => none)

/-- Is an effect an entry-store mutation (add, update or delete)? -/
def isStoreMutation : Effect → Bool
  | Effect.addEntryDoc _ => true
  | Effect.updateEntryDoc _ _ => true
  | Effect.deleteEntryDoc _ => true
  | _ => false

/-- The entry-store mutations of a trace. -/
def storeMutations (t : List Effect) : List Effect := t.filter isStoreMutation

/-- Did the computation finish without an escaping exception? -/
def completesNormally (c : Comp α) : Bool :=
  match c.result with
  | Except.ok _ => true
  | Except.error _ => false

/-! ### How one `forEach` iteration changes each bucket -/

theorem buildStep_courseDesign (acc : Buckets) (d : StoreDoc) :
    (buildStep acc d).courseDesign =
      if d.data.category = "Course Design" then acc.courseDesign ++ [entryOfDoc d]
      else acc.courseDesign := by
  unfold buildStep bucketsGet bucketsSet
  split_ifs <;> rfl

theorem buildStep_pedagogicalInnovations (acc : Buckets) (d : StoreDoc) :
    (buildStep acc d).pedagogicalInnovations =
      if d.data.category = "Pedagogical Innovations" then
        acc.pedagogicalInnovations ++ [entryOfDoc d]
      else acc.pedagogicalInnovations := by
  unfold buildStep bucketsGet bucketsSet
  split_ifs <;> first | rfl | simp_all

theorem buildStep_studentFeedback (acc : Buckets) (d : StoreDoc) :
    (buildStep acc d).studentFeedback =
      if d.data.category = "Student Feedback" then acc.studentFeedback ++ [entryOfDoc d]
      else acc.studentFeedback := by
  unfold buildStep bucketsGet bucketsSet
  split_ifs <;> first | rfl | simp_all

theorem buildStep_academicResults (acc : Buckets) (d : StoreDoc) :
    (buildStep acc d).academicResults =
      if d.data.category = "Academic Results" then acc.academicResults ++ [entryOfDoc d]
      else acc.academicResults := by
  unfold buildStep bucketsGet bucketsSet
  split_ifs <;> first | rfl | simp_all

/-! ### The whole loop, bucket by bucket -/

theorem foldl_buildStep_courseDesign (docs : List StoreDoc) (acc : Buckets) :
    (List.foldl buildStep acc docs).courseDesign =
      acc.courseDesign
        ++ (docs.filter (fun d => d.data.category == "Course Design")).map entryOfDoc := by
  induction docs generalizing acc with
  | nil => simp
  | cons d ds ih =>
      simp only [List.foldl_cons, ih, List.filter_cons]
      by_cases h : d.data.category = "Course Design" <;>
        simp [h, buildStep_courseDesign, List.append_assoc, beq_iff_eq]

theorem foldl_buildStep_pedagogicalInnovations (docs : List StoreDoc) (acc : Buckets) :
    (List.foldl buildStep acc docs).pedagogicalInnovations =
      acc.pedagogicalInnovations
        ++ (docs.filter (fun d => d.data.category == "Pedagogical Innovations")).map
            entryOfDoc := by
  induction docs generalizing acc with
  | nil => simp
  | cons d ds ih =>
      simp only [List.foldl_cons, ih, List.filter_cons]
      by_cases h : d.data.category = "Pedagogical Innovations" <;>
        simp [h, buildStep_pedagogicalInnovations, List.append_assoc, beq_iff_eq]

theorem foldl_buildStep_studentFeedback (docs : List StoreDoc) (acc : Buckets) :
    (List.foldl buildStep acc docs).studentFeedback =
      acc.studentFeedback
        ++ (docs.filter (fun d => d.data.category == "Student Feedback")).map entryOfDoc := by
  induction docs generalizing acc with
  | nil => simp
  | cons d ds ih =>
      simp only [List.foldl_cons, ih, List.filter_cons]
      by_cases h : d.data.category = "Student Feedback" <;>
        simp [h, buildStep_studentFeedback, List.append_assoc, beq_iff_eq]

theorem foldl_buildStep_academicResults (docs : List StoreDoc) (acc : Buckets) :
    (List.foldl buildStep acc docs).academicResults =
      acc.academicResults
        ++ (docs.filter (fun d => d.data.category == "Academic Results")).map entryOfDoc := by
  induction docs generalizing acc with
  | nil => simp
  | cons d ds ih =>
      simp only [List.foldl_cons, ih, List.filter_cons]
      by_cases h : d.data.category = "Academic Results" <;>
        simp [h, buildStep_academicResults, List.append_assoc, beq_iff_eq]

/-- The bucket under any key after the loop: for each of the four fixed keys,
exactly the fetched documents carrying that category, in query order; for any
other key, no bucket at all. -/
theorem bucketsGet_buildBuckets (docs : List StoreDoc) (c : String) :
    bucketsGet (buildBuckets docs) c =
      if c ∈ categoryNames
      then some ((docs.filter (fun d => d.data.category == c)).map entryOfDoc)
      else none := by
  by_cases h1 : c = "Course Design"
  · subst h1
    simp [bucketsGet, buildBuckets, categoryNames, foldl_buildStep_courseDesign,
      initialBuckets]
  · by_cases h2 : c = "Pedagogical Innovations"
    · subst h2
      simp [bucketsGet, buildBuckets, categoryNames, foldl_buildStep_pedagogicalInnovations,
        initialBuckets]
    · by_cases h3 : c = "Student Feedback"
      · subst h3
        simp [bucketsGet, buildBuckets, categoryNames, foldl_buildStep_studentFeedback,
          initialBuckets]
      · by_cases h4 : c = "Academic Results"
        · subst h4
          simp [bucketsGet, buildBuckets, categoryNames, foldl_buildStep_academicResults,
            initialBuckets]
        · simp [bucketsGet, categoryNames, h1, h2, h3, h4]

/-- An entry sits in the bucket named by its own `category` field only. -/
theorem mem_bucket_category (docs : List StoreDoc) (c : String) (l : List Entry)
    (e : Entry) (hget : bucketsGet (buildBuckets docs) c = some l) (he : e ∈ l) :
    e.category = c := by
  rw [bucketsGet_buildBuckets] at hget
  by_cases hc : c ∈ categoryNames
  · rw [if_pos hc] at hget
    obtain ⟨hl⟩ : l = (docs.filter (fun d => d.data.category == c)).map entryOfDoc ∧ True :=
      ⟨(Option.some.inj hget).symm, trivial⟩
    subst hl
    obtain ⟨d, hd, rfl⟩ := List.mem_map.mp he
    have hdc : d.data.category == c := (List.mem_filter.mp hd).2
    simpa [entryOfDoc] using (beq_iff_eq.mp hdc)
  · rw [if_neg hc] at hget
    exact Option.noConfusion hget

/-! ## Claims -/

/-- Claim C1: on a successful query for the resolved teacher, `fetchEntries`
replaces the whole bucketed state with four freshly built buckets; each
fetched entry lands in exactly the bucket named by its `category` field, an
entry whose category is none of the four fixed names lands in no bucket, and
no bucket beyond the four exists. -/
theorem fetchEntries_partitions_by_category (tid : String) (prev : Buckets)
    (docs : List StoreDoc) :
    (fetchEntries (some tid) prev (Except.ok docs)).result = Except.ok (buildBuckets docs)
    ∧ (∀ c, c ∈ categoryNames →
        bucketsGet (buildBuckets docs) c =
          some ((docs.filter (fun d => d.data.category == c)).map entryOfDoc))
    ∧ (∀ c, c ∉ categoryNames → bucketsGet (buildBuckets docs) c = none)
    ∧ (∀ e c c' l l', bucketsGet (buildBuckets docs) c = some l →
        bucketsGet (buildBuckets docs) c' = some l' → e ∈ l → e ∈ l' → c = c')
    ∧ (∀ d, d ∈ docs → d.data.category ∉ categoryNames →
        ∀ c l, bucketsGet (buildBuckets docs) c = some l → entryOfDoc d ∉ l)
    ∧ (∀ d, d ∈ docs → d.data.category ∈ categoryNames →
        ∃ l, bucketsGet (buildBuckets docs) d.data.category = some l ∧ entryOfDoc d ∈ l) := by
  refine ⟨?_, ?_, ?_, ?_, ?_, ?_⟩
  · simp [fetchEntries, runCatch, Comp.bind, callRemote, Comp.pure]
  · intro c hc
    rw [bucketsGet_buildBuckets, if_pos hc]
  · intro c hc
    rw [bucketsGet_buildBuckets, if_neg hc]
  · intro e c c' l l' h1 h2 he1 he2
    exact (mem_bucket_category docs c l e h1 he1).symm.trans
      (mem_bucket_category docs c' l' e h2 he2)
  · intro d _ hcat c l hget hmem
    have hc : (entryOfDoc d).category = c := mem_bucket_category docs c l _ hget hmem
    have hcn : c ∈ categoryNames := by
      by_contra hno
      rw [bucketsGet_buildBuckets, if_neg hno] at hget
      exact Option.noConfusion hget
    have hc2 : d.data.category = c := hc
    exact hcat (hc2.symm ▸ hcn)
  · intro d hd hcat
    refine ⟨(docs.filter (fun x => x.data.category == d.data.category)).map entryOfDoc,
      ?_, ?_⟩
    · rw [bucketsGet_buildBuckets, if_pos hcat]
    · exact List.mem_map.mpr ⟨d, List.mem_filter.mpr ⟨hd, by simp⟩, rfl⟩

/-- Claim C1 witness: a concrete two-document snapshot — one "Course Design"
document and one with an unrecognized category — evaluated through the claim's
theorem. -/
theorem fetchEntries_partitions_witness :
    (bucketsGet
        (buildBuckets
          [⟨"e1", ⟨"Course Design", "T", "1st Year", "A", "d", "u", "t1"⟩⟩,
           ⟨"e2", ⟨"Mystery", "T2", "2nd Year", "B", "d2", "u2", "t1"⟩⟩])
        "Course Design" =
      some [entryOfDoc ⟨"e1", ⟨"Course Design", "T", "1st Year", "A", "d", "u", "t1"⟩⟩])
    ∧ (bucketsGet
        (buildBuckets
          [⟨"e1", ⟨"Course Design", "T", "1st Year", "A", "d", "u", "t1"⟩⟩,
           ⟨"e2", ⟨"Mystery", "T2", "2nd Year", "B", "d2", "u2", "t1"⟩⟩])
        "Mystery" = none) := by
  constructor
  · have h := (fetchEntries_partitions_by_category "t1" initialBuckets
      [⟨"e1", ⟨"Course Design", "T", "1st Year", "A", "d", "u", "t1"⟩⟩,
       ⟨"e2", ⟨"Mystery", "T2", "2nd Year", "B", "d2", "u2", "t1"⟩⟩]).2.1
      "Course Design" (by decide)
    simpa using h
  · exact (fetchEntries_partitions_by_category "t1" initialBuckets
      [⟨"e1", ⟨"Course Design", "T", "1st Year", "A", "d", "u", "t1"⟩⟩,
       ⟨"e2", ⟨"Mystery", "T2", "2nd Year", "B", "d2", "u2", "t1"⟩⟩]).2.2.1
      "Mystery" (by decide)

/-- Claim C4: when the entry query throws, `fetchEntries` catches the error,
logs it to the console, and returns the previous bucketed state untouched. -/
theorem fetchEntries_error_preserves_state (tid : String) (prev : Buckets)
    (err : String) :
    (fetchEntries (some tid) prev (Except.error err)).result = Except.ok prev
    ∧ (fetchEntries (some tid) prev (Except.error err)).trace =
        [Effect.queryEntries tid, Effect.consoleError ("Error fetching entries: " ++ err)] := by
  constructor <;>
    simp [fetchEntries, runCatch, Comp.bind, callRemote, Comp.pure, consoleErrorC]

/-- Claim C5: `validateForm` answers `true` exactly when all five fields are
non-empty, and `false` exactly when at least one of them is empty. -/
theorem validateForm_true_iff_all_nonempty (f : FormFields) :
    (validateForm f = true ↔
      f.title ≠ "" ∧ f.className ≠ "" ∧ f.«section» ≠ "" ∧ f.description ≠ "" ∧ f.url ≠ "")
    ∧ (validateForm f = false ↔
      f.title = "" ∨ f.className = "" ∨ f.«section» = "" ∨ f.description = "" ∨ f.url = "") := by
  constructor
  · simp [validateForm, and_assoc]
  · rw [← Bool.not_eq_true]
    simp [validateForm]
    tauto

/-- Claim C9: while `teacherId` is still null, `addOrUpdateEntry` issues no
effect at all — no store write, no audit append, no re-fetch — and leaves the
entries state unchanged, whatever its arguments and whatever the remote
services would have answered. -/
theorem addOrUpdateEntry_null_teacher_noop (userId : Option String)
    (category title className sec description url : String) (entryId : Option String)
    (mutRes logRes : Except String Unit) (now : Nat)
    (queryRes : Except String (List StoreDoc)) (prev : Buckets) :
    addOrUpdateEntry none userId category title className sec description url entryId
      mutRes logRes now queryRes prev = ⟨[], Except.ok prev⟩ := rfl

/-- Claim C2 counterexample: a concrete form submission — the form all blank,
no teacher identifier resolved yet — on which `handleAddOrUpdate` issues no
effect at all, in particular no add or update mutation against the entry
store; the claim's "unconditionally issues the add or update mutation" fails
here.  (`validateForm` is indeed never consulted, but the `!teacherId` guard
of `addOrUpdateEntry` does block the write.) -/
theorem handleAddOrUpdate_unconditional_cex :
    (handleAddOrUpdate ⟨true, emptyFormData, false⟩ none none "Course Design"
        (Except.ok ()) (Except.ok ()) 0 (Except.ok []) initialBuckets).2.trace = []
    ∧ validateForm ⟨"", "", "", "", ""⟩ = false := by
  constructor
  · rfl
  · rfl

/-- Claim C2 as amended: once a teacher identifier is resolved, every form
submission — whatever the form's fields, in particular with every required
field blank — makes `handleAddOrUpdate` issue exactly one add-or-update
mutation against the entry store, built from the form's fields as they are;
no validation gates the write (`validateForm` does not occur on the save
path, so the issued mutation is the same whether `validateForm` would answer
`true` or `false`). -/
theorem handleAddOrUpdate_skips_validation (cs : CardState) (tid : String)
    (userId : Option String) (category : String) (mutRes logRes : Except String Unit)
    (now : Nat) (queryRes : Except String (List StoreDoc)) (prev : Buckets) :
    storeMutations
        (handleAddOrUpdate cs (some tid) userId category mutRes logRes now queryRes
          prev).2.trace =
      [match formIdOpt cs.formData with
       | none =>
         Effect.addEntryDoc
           ⟨category, cs.formData.title, cs.formData.className, cs.formData.«section»,
             cs.formData.description, cs.formData.url, tid⟩
       | some eid =>
         Effect.updateEntryDoc eid
           ⟨category, cs.formData.title, cs.formData.className, cs.formData.«section»,
             cs.formData.description, cs.formData.url, tid⟩] := by
  cases h : formIdOpt cs.formData <;>
    cases mutRes <;> cases logRes <;> cases queryRes <;>
      simp [handleAddOrUpdate, addOrUpdateEntry, logActivity, fetchEntries, h,
        Comp.bind, runCatch, callRemote, Comp.pure, consoleLogC, consoleErrorC,
        storeMutations, isStoreMutation, List.filter]

/-- Claim C3: when the store mutation succeeds, the remote calls issued are
exactly the mutation, then one audit append, then the re-fetch query — for an
add (no identifier) the record's `actionType` is "Add", for an update
(identifier supplied) "Edit", for a delete "Delete"; the record's `entity` is
"TeachingLearning" and its `userId` the acting session user's id (null when
absent).  The single append sits after the successful mutation and before the
re-fetch in every case, whatever the audit append and the re-fetch themselves
do. -/
theorem mutation_logs_exactly_once (tid : String) (userId : Option String)
    (category title className sec description url eid : String)
    (logRes : Except String Unit) (now : Nat)
    (queryRes : Except String (List StoreDoc)) (prev : Buckets) :
    remoteOps
        (addOrUpdateEntry (some tid) userId category title className sec description url
          none (Except.ok ()) logRes now queryRes prev).trace =
      [Effect.addEntryDoc ⟨category, title, className, sec, description, url, tid⟩,
       Effect.logAppend
         ⟨"Add", "TeachingLearning",
           "Added a new entry titled \"" ++ title ++ "\" in the \"" ++ category
             ++ "\" category", now, userId⟩,
       Effect.queryEntries tid]
    ∧ remoteOps
        (addOrUpdateEntry (some tid) userId category title className sec description url
          (some eid) (Except.ok ()) logRes now queryRes prev).trace =
      [Effect.updateEntryDoc eid ⟨category, title, className, sec, description, url, tid⟩,
       Effect.logAppend
         ⟨"Edit", "TeachingLearning",
           "Edited an entry titled \"" ++ title ++ "\" in the \"" ++ category
             ++ "\" category", now, userId⟩,
       Effect.queryEntries tid]
    ∧ remoteOps
        (handleDelete (some tid) userId eid title category (Except.ok ()) logRes now
          queryRes prev).trace =
      [Effect.deleteEntryDoc eid,
       Effect.logAppend
         ⟨"Delete", "TeachingLearning",
           "Deleted an entry titled \"" ++ title ++ "\" in the \"" ++ category
             ++ "\" category", now, userId⟩,
       Effect.queryEntries tid] := by
  refine ⟨?_, ?_, ?_⟩ <;>
    cases logRes <;> cases queryRes <;>
      simp [addOrUpdateEntry, handleDelete, logActivity, fetchEntries,
        Comp.bind, runCatch, callRemote, Comp.pure, consoleLogC, consoleErrorC,
        remoteOps, isConsole, List.filter]

/-- Claim C6: with no session user the mount issues no effect at all — in
particular the identity resolver (`getTeacherDoc`) is never called; and when
the user's teacher document does not exist, the mounted state is still the
initial one (`teacherId` null, all four buckets empty) and the only remote
call issued is the teacher lookup — the entry query is never invoked. -/
theorem mount_missing_user_or_teacher (lookupRes : Except String Bool)
    (queryRes : Except String (List StoreDoc)) :
    mountComponent none lookupRes queryRes = ⟨[], Except.ok initialState⟩
    ∧ (∀ uid, uid ≠ "" →
        (mountComponent (some uid) (Except.ok false) queryRes).result =
            Except.ok initialState
        ∧ (mountComponent (some uid) (Except.ok false) queryRes).trace =
            [Effect.getTeacherDoc uid,
             Effect.consoleError "Teacher document does not exist."]) := by
  constructor
  · rfl
  · intro uid huid
    constructor <;>
      simp [mountComponent, fetchTeacherId, truthyUserId, huid, initialState,
        Comp.bind, runCatch, callRemote, Comp.pure, consoleErrorC]

/-- Claim C6 witness: a concrete user id whose teacher document is absent,
evaluated through the claim's theorem. -/
theorem mount_missing_teacher_witness :
    (mountComponent (some "u1") (Except.ok false) (Except.ok [])).result =
        Except.ok initialState
    ∧ (mountComponent (some "u1") (Except.ok false) (Except.ok [])).trace =
        [Effect.getTeacherDoc "u1",
         Effect.consoleError "Teacher document does not exist."] :=
  (mount_missing_user_or_teacher (Except.ok false) (Except.ok [])).2 "u1" (by decide)

/-- Claim C7 counterexample: a concrete open form holding data.  The Cancel
handler (`() => setShowForm(false)`) closes the form but leaves `formData`
exactly as it was — it does not reset the fields to their empty initial
values, contrary to the claim that cancelling clears the form data. -/
theorem cancel_does_not_clear_cex :
    (cancelForm ⟨true, ⟨"", "Algebra", "1st Year", "A", "notes", "http://x"⟩, false⟩).showForm
        = false
    ∧ (cancelForm ⟨true, ⟨"", "Algebra", "1st Year", "A", "notes", "http://x"⟩,
        false⟩).formData ≠ emptyFormData := by
  constructor
  · rfl
  · decide

/-- Claim C7 as amended: saving clears the form data (every field back to the
empty initial value) and closes the form; cancelling closes the form but
leaves the form data unchanged. -/
theorem save_clears_cancel_only_closes (cs : CardState) (teacherId userId : Option String)
    (category : String) (mutRes logRes : Except String Unit) (now : Nat)
    (queryRes : Except String (List StoreDoc)) (prev : Buckets) :
    (handleAddOrUpdate cs teacherId userId category mutRes logRes now queryRes prev).1 =
        ⟨false, emptyFormData, cs.viewMore⟩
    ∧ (cancelForm cs).showForm = false
    ∧ (cancelForm cs).formData = cs.formData := ⟨rfl, rfl, rfl⟩

/-- Claim C8: none of the module's remote-calling operations lets an
exception escape to its caller: each wraps its store calls in a catch-all
that logs and swallows, so whatever every remote service answers — success or
a thrown error — `logActivity`, `fetchTeacherId`, `fetchEntries`,
`addOrUpdateEntry` and `handleDelete` all complete normally. -/
theorem no_operation_propagates_errors (actionType entity description : String)
    (user userId teacherId : Option String) (st : ComponentState)
    (category title className sec description2 url entryId : String)
    (entryIdOpt : Option String) (now : Nat)
    (addRes mutRes delRes logRes : Except String Unit) (lookupRes : Except String Bool)
    (queryRes : Except String (List StoreDoc)) (prev : Buckets) :
    completesNormally (logActivity actionType entity description userId now addRes) = true
    ∧ completesNormally (fetchTeacherId user lookupRes st) = true
    ∧ completesNormally (fetchEntries teacherId prev queryRes) = true
    ∧ completesNormally
        (addOrUpdateEntry teacherId userId category title className sec description2 url
          entryIdOpt mutRes logRes now queryRes prev) = true
    ∧ completesNormally
        (handleDelete teacherId userId entryId title category delRes logRes now queryRes
          prev) = true := by
  refine ⟨?_, ?_, ?_, ?_, ?_⟩
  · cases addRes <;> rfl
  · cases user with
    | none => rfl
    | some uid =>
      by_cases huid : uid = "" <;> cases lookupRes with
      | error e =>
        simp [fetchTeacherId, completesNormally, huid, Comp.bind, runCatch, callRemote,
          Comp.pure, consoleErrorC]
      | ok ex =>
        cases ex <;>
          simp [fetchTeacherId, completesNormally, huid, Comp.bind, runCatch, callRemote,
            Comp.pure, consoleErrorC]
  · cases teacherId with
    | none => rfl
    | some tid => cases queryRes <;> rfl
  · cases teacherId with
    | none => rfl
    | some tid =>
      cases entryIdOpt <;> cases mutRes <;> cases logRes <;> cases queryRes <;>
        simp [addOrUpdateEntry, logActivity, fetchEntries, completesNormally,
          Comp.bind, runCatch, callRemote, Comp.pure, consoleLogC, consoleErrorC]
  · cases teacherId with
    | none =>
      cases delRes <;> cases logRes <;>
        simp [handleDelete, logActivity, fetchEntries, completesNormally,
          Comp.bind, runCatch, callRemote, Comp.pure, consoleLogC, consoleErrorC]
    | some tid =>
      cases delRes <;> cases logRes <;> cases queryRes <;>
        simp [handleDelete, logActivity, fetchEntries, completesNormally,
          Comp.bind, runCatch, callRemote, Comp.pure, consoleLogC, consoleErrorC]

/-- Claim C10: every document `addOrUpdateEntry` writes — inserted as new or
overwriting an existing one — is exactly the seven-field object
`{category, title, className, section, description, url, teacherId}` built
from the invoking panel's category, the form's fields as passed, and the
resolved teacher identifier; in update mode the write is an in-place
`updateDoc` of all seven fields under the supplied document id. -/
theorem written_docs_carry_teacher_and_category (tid : String) (userId : Option String)
    (category title className sec description url eid : String)
    (entryIdOpt : Option String) (mutRes logRes : Except String Unit) (now : Nat)
    (queryRes : Except String (List StoreDoc)) (prev : Buckets) :
    writtenDocs
        (addOrUpdateEntry (some tid) userId category title className sec description url
          entryIdOpt mutRes logRes now queryRes prev).trace =
      [⟨category, title, className, sec, description, url, tid⟩]
    ∧ (addOrUpdateEntry (some tid) userId category title className sec description url
          (some eid) mutRes logRes now queryRes prev).trace.head? =
      some (Effect.updateEntryDoc eid
        ⟨category, title, className, sec, description, url, tid⟩)
    ∧ (∀ d, d ∈ writtenDocs
          (addOrUpdateEntry (some tid) userId category title className sec description url
            entryIdOpt mutRes logRes now queryRes prev).trace →
        d.teacherId = tid ∧ d.category = category) := by
  refine ⟨?_, ?_, ?_⟩
  · cases entryIdOpt <;> cases mutRes <;> cases logRes <;> cases queryRes <;>
      simp [addOrUpdateEntry, logActivity, fetchEntries, writtenDocs,
        Comp.bind, runCatch, callRemote, Comp.pure, consoleLogC, consoleErrorC,
        List.filterMap]
  · cases mutRes <;> cases logRes <;> cases queryRes <;>
      simp [addOrUpdateEntry, logActivity, fetchEntries,
        Comp.bind, runCatch, callRemote, Comp.pure, consoleLogC, consoleErrorC]
  · intro d hd
    have hw : writtenDocs
        (addOrUpdateEntry (some tid) userId category title className sec description url
          entryIdOpt mutRes logRes now queryRes prev).trace =
        [⟨category, title, className, sec, description, url, tid⟩] := by
      cases entryIdOpt <;> cases mutRes <;> cases logRes <;> cases queryRes <;>
        simp [addOrUpdateEntry, logActivity, fetchEntries, writtenDocs,
          Comp.bind, runCatch, callRemote, Comp.pure, consoleLogC, consoleErrorC,
          List.filterMap]
    rw [hw] at hd
    rcases List.mem_singleton.mp hd with rfl
    exact ⟨rfl, rfl⟩

/-- Claim C10 witness: a concrete update call evaluated through the claim's
theorem — the single written document carries the panel's category and the
resolved teacher id. -/
theorem written_docs_witness :
    ∀ d, d ∈ writtenDocs
        (addOrUpdateEntry (some "t1") (some "u1") "Student Feedback" "" "" "" "" ""
          (some "e9") (Except.ok ()) (Except.ok ()) 0 (Except.ok [])
          initialBuckets).trace →
      d.teacherId = "t1" ∧ d.category = "Student Feedback" :=
  (written_docs_carry_teacher_and_category "t1" (some "u1") "Student Feedback" "" "" ""
    "" "" "e9" (some "e9") (Except.ok ()) (Except.ok ()) 0 (Except.ok [])
    initialBuckets).2.2
